import Mathlib

/-!
Shallow embedding of `src/script.js` (AquaFix plumber site) and proofs about
its field-validation engine, contact-form controller, reveal controllers and
stats counter.
-/

namespace Plumber

/-! ## JavaScript string primitives -/

/-- The character set matched by the JavaScript regular-expression class `\s`
and trimmed by `String.prototype.trim` (ECMAScript WhiteSpace and
LineTerminator code points). -/
def isJsWhitespace (c : Char) : Bool :=
  c = ' ' || c = '\t' || c = '\n' || c = '\r' || c = '\x0b' || c = '\x0c' ||
  c.toNat = 0xa0 || c.toNat = 0x1680 ||
  (0x2000 <= c.toNat && c.toNat <= 0x200a) ||
  c.toNat = 0x2028 || c.toNat = 0x2029 || c.toNat = 0x202f || c.toNat = 0x205f ||
  c.toNat = 0x3000 || c.toNat = 0xfeff

/-- Model of `value.trim()`: remove leading and trailing whitespace. -/
def jsTrim (s : String) : String :=
  ⟨(s.data.dropWhile isJsWhitespace).rdropWhile isJsWhitespace⟩

/-! ## The phone pattern `/^[+]?[\d\s\-().]{7,20}$/` (script.js line 270) -/

/-- One character of the class `[\d\s\-().]`. -/
def phoneBodyChar (c : Char) : Bool :=
  c.isDigit || isJsWhitespace c || c = '-' || c = '(' || c = ')' || c = '.'

/-- Model of `rules.formPhone.pattern.test` on a whole string: `'+'` is not in the
class, so a leading `'+'` can only be consumed by `[+]?` and the remainder
must be 7 to 20 class characters. -/
def phonePattern (s : String) : Bool :=
  let body := if s.data.head? = some '+' then s.data.tail else s.data
  body.all phoneBodyChar && decide (7 ≤ body.length) && decide (body.length ≤ 20)

/-- The acceptance condition exactly as claim C4 words it: an optional
leading `'+'` followed by digits, spaces, hyphens, parentheses and periods,
with TOTAL visible-character length (the whole string, `'+'` included)
between 7 and 20 inclusive. Written from the claim, for comparison with
`phonePattern`, which is written from the source regex. -/
def claimedPhoneAccept (s : String) : Bool :=
  let body := if s.data.head? = some '+' then s.data.tail else s.data
  body.all (fun c => c.isDigit || c = ' ' || c = '-' || c = '(' || c = ')' || c = '.') &&
  decide (7 ≤ s.data.length) && decide (s.data.length ≤ 20)

/-! ## The validation rule table (script.js lines 259-284) -/

/-- The `messages` object of one rule.  A constraint the rule does not
declare keeps the default `""` (like the absent JS property, it is falsy and
is never read for this table). -/
structure Messages where
  required : String := ""
  minLength : String := ""
  patternMsg : String := ""
  deriving Repr, DecidableEq

/-- One entry of the `rules` table. -/
structure Rule where
  required : Bool
  minLength : Option Nat := none
  pat : Option (String → Bool) := none
  messages : Messages

/-- The `rules` object literal: `rules[id]` is `none` for an id that is not a
key (JS `undefined`). -/
def rules : String → Option Rule
  | "formName" =>
    some { required := true, minLength := some 2,
           messages := { required := "Ime i prezime su obavezni.",
                         minLength := "Unesite puno ime (minimum 2 karaktera)." } }
  | "formPhone" =>
    some { required := true, pat := some phonePattern,
           messages := { required := "Broj telefona je obavezan.",
                         patternMsg := "Unesite ispravan broj telefona." } }
  | "formMessage" =>
    some { required := true, minLength := some 10,
           messages := { required := "Opis problema je obavezan.",
                         minLength := "Opišite problem detaljnije (min. 10 karaktera)." } }
  | _ => none

/-- JS truthiness of `rule.minLength` (a number is falsy exactly when it is
`0`, and an absent property is falsy). -/
def minLengthTruthy : Option Nat → Bool
  | none => false
  | some m => decide (m ≠ 0)

/-- Value of `rule.minLength` read as a number once known truthy (`getD 0` is never
the value actually compared, since truthiness rules out `none`). -/
def minLengthVal (o : Option Nat) : Nat := o.getD 0

/-- Condition `rule.pattern && !rule.pattern.test(val)`. -/
def patternFails : Option (String → Bool) → String → Bool
  | none, _ => false
  | some p, v => !(p v)

/-- Function `validateField` (script.js lines 291-307): look the field's id up in the
rule table (no rule means valid), trim the value, then check `required`,
`minLength`, `pattern` in that order, returning the first violated rule's
message, or `""` when none is violated. -/
def validateField (fieldId : String) (value : String) : String :=
  match rules fieldId with
  | none => ""
  | some rule =>
    let val := jsTrim value
    if rule.required && (val == "") then
      rule.messages.required
    else if (val != "") && minLengthTruthy rule.minLength &&
        decide (val.length < minLengthVal rule.minLength) then
      rule.messages.minLength
    else if (val != "") && patternFails rule.pat val then
      rule.messages.patternMsg
    else
      ""

example : validateField "formName" "  " = "Ime i prezime su obavezni." := by decide
example : validateField "formName" " a " = "Unesite puno ime (minimum 2 karaktera)." := by decide
example : validateField "formName" "ab" = "" := by decide
example : validateField "formPhone" "+381 64 123 4567" = "" := by decide
example : validateField "formPhone" "abc" = "Unesite ispravan broj telefona." := by decide
example : validateField "nosuch" "zz" = "" := by decide
example : phonePattern "+123456" = false := by decide
example : claimedPhoneAccept "+123456" = true := by decide
example : phonePattern "+12345678901234567890" = true := by decide
example : claimedPhoneAccept "+12345678901234567890" = false := by decide

/-! ## Per-field error rendering and the blur/input listeners
(script.js lines 314-344) -/

/-- Observable DOM state of one tracked input: its current value, the
`is-invalid` class, the `aria-invalid` attribute, and the text of its
`#<id>Error` element. -/
structure FieldUI where
  value : String
  isInvalid : Bool
  ariaInvalid : Bool
  errorText : String
  deriving Repr, DecidableEq

/-- Function `setFieldError` (script.js lines 314-326): a truthy (non-empty)
message marks the field invalid and shows the text; otherwise the invalid
marks are removed and the text cleared. -/
def setFieldError (f : FieldUI) (message : String) : FieldUI :=
  if message != "" then
    { f with isInvalid := true, ariaInvalid := true, errorText := message }
  else
    { f with isInvalid := false, ariaInvalid := false, errorText := "" }

/-- The blur listener (script.js lines 333-336): validate and render. -/
def onBlur (id : String) (f : FieldUI) : FieldUI :=
  setFieldError f (validateField id f.value)

/-- The input listener (script.js lines 338-343): the DOM has already
updated the value when the handler runs; the handler re-validates only when
the field currently carries the `is-invalid` class. -/
def onInput (id : String) (newValue : String) (f : FieldUI) : FieldUI :=
  let f1 := { f with value := newValue }
  if f1.isInvalid then setFieldError f1 (validateField id f1.value) else f1

/-! ## The contact-form submit flow (script.js lines 347-403 and 945-956) -/

/-- Caption state of the `#formSubmit` control: `defaultCaption` is the
markup restored by the 900ms callback (send icon plus the text
`Pošalji upit`), `sending` is the `Šaljem...` text. -/
inductive SubmitCaption
  | defaultCaption
  | sending
  deriving Repr, DecidableEq

/-- Observable state of the contact form: the three tracked fields in
declaration order, the submit control, the `#formSuccess` notice, and flags
for the outcome of a submit dispatch. -/
structure FormState where
  nameField : FieldUI
  phoneField : FieldUI
  messageField : FieldUI
  submitDisabled : Bool
  submitCaption : SubmitCaption
  submitDimmed : Bool
  submittingClass : Bool
  successHidden : Bool
  defaultPrevented : Bool
  focused : Option String
  simulationStarted : Bool
  deriving Repr, DecidableEq

/-- Validation outcome of the `formName` field on the current value. -/
def nameError (s : FormState) : String := validateField "formName" s.nameField.value

/-- Validation outcome of the `formPhone` field on the current value. -/
def phoneError (s : FormState) : String := validateField "formPhone" s.phoneField.value

/-- Validation outcome of the `formMessage` field on the current value. -/
def messageError (s : FormState) : String := validateField "formMessage" s.messageField.value

/-- The `Object.keys(rules).forEach` loop of the submit handler (script.js
lines 353-364): every tracked field is validated and rendered, in the
declaration order formName, formPhone, formMessage. -/
def markAllFields (s : FormState) : FormState :=
  { s with
    nameField := setFieldError s.nameField (nameError s),
    phoneField := setFieldError s.phoneField (phoneError s),
    messageField := setFieldError s.messageField (messageError s) }

/-- First invalid field in declaration order, as tracked by the
`firstInvalidField` variable of the submit handler. -/
def firstInvalidId (s : FormState) : Option String :=
  if nameError s != "" then some "formName"
  else if phoneError s != "" then some "formPhone"
  else if messageError s != "" then some "formMessage"
  else none

/-- The `isValid` flag of the submit handler. -/
def formIsValid (s : FormState) : Bool :=
  (nameError s == "") && (phoneError s == "") && (messageError s == "")

/-- Synchronous part of the `initContactForm` submit listener (script.js
lines 347-374): always prevent the default action, validate and mark every
tracked field, then either focus the first invalid field and abort, or
start the simulated submission (disable the control, switch the caption to
the sending state, dim it). -/
def submitHandlerMain (s : FormState) : FormState :=
  let s1 := markAllFields { s with defaultPrevented := true }
  match firstInvalidId s with
  | some fid => { s1 with focused := some fid }
  | none =>
      { s1 with submitDisabled := true, submitCaption := SubmitCaption.sending,
                submitDimmed := true, simulationStarted := true }

/-- Effect of `form.reset()`: the three inputs return to their (empty)
default values. -/
def formReset (s : FormState) : FormState :=
  { s with nameField := { s.nameField with value := "" },
           phoneField := { s.phoneField with value := "" },
           messageField := { s.messageField with value := "" } }

/-- Body of the 900ms `setTimeout` callback of the valid path (script.js
lines 377-402): reset the form, re-enable the submit control with its
default caption and icon, reveal the success notice (which schedules its
own 6s auto-hide) and clear every field's invalid state. -/
def submitTimeout (s : FormState) : FormState :=
  let s1 := { formReset s with
              submitDisabled := false, submitCaption := SubmitCaption.defaultCaption,
              submitDimmed := false, successHidden := false }
  { s1 with nameField := setFieldError s1.nameField "",
            phoneField := setFieldError s1.phoneField "",
            messageField := setFieldError s1.messageField "" }

/-- Body of the nested 6000ms callback (script.js line 394). -/
def hideSuccessTimeout (s : FormState) : FormState := { s with successHidden := true }

/-- Effect of `submitBtn.classList.add('btn--submitting')` (script.js 953). -/
def addSubmittingClass (s : FormState) : FormState := { s with submittingClass := true }

/-- Effect of `submitBtn.classList.remove('btn--submitting')` (script.js 954). -/
def removeSubmittingClass (s : FormState) : FormState := { s with submittingClass := false }

/-- A callback scheduled with `setTimeout` during a submit dispatch. -/
inductive TimedAct
  | mainReset
  | addSubmitting
  | removeSubmitting
  deriving Repr, DecidableEq

/-- Dispatching one submit event on `#contactForm`: the `initContactForm`
listener runs its synchronous part and, only on the valid path, schedules
its 900ms callback; the `patchFormSubmitButton` listener then schedules the
0ms add and the 900ms remove of the `btn--submitting` class
unconditionally (script.js lines 951-955). -/
def dispatchSubmit (s : FormState) : FormState × List (Nat × TimedAct) :=
  (submitHandlerMain s,
    (if formIsValid s then [(900, TimedAct.mainReset)] else []) ++
      [(0, TimedAct.addSubmitting), (900, TimedAct.removeSubmitting)])

/-- State of the form just after the 900ms timers of a valid submit have
fired: the 0ms timer added the `btn--submitting` class, then the main
callback reset the form and the patch callback removed the class (the
class commutes with the reset, so the tie order at 900ms is immaterial). -/
def stateAfterDelay (s : FormState) : FormState :=
  removeSubmittingClass (submitTimeout (addSubmittingClass (submitHandlerMain s)))

/-- State once the success notice's 6s auto-hide has also fired. -/
def stateAfterToast (s : FormState) : FormState :=
  hideSuccessTimeout (stateAfterDelay s)

/-! ## Reveal controllers (script.js lines 160-188 and the analogous
observer callbacks) -/

/-- One element managed by a reveal controller: whether the `is-visible`
marker has been applied, and whether the IntersectionObserver still
observes it. -/
structure RevealEntry where
  visible : Bool
  observed : Bool
  deriving Repr, DecidableEq

/-- One delivery of an intersection entry for the element (`hit` is
`entry.isIntersecting`).  The observer delivers entries only for elements
it currently observes, which the `observed` guard models; the callback
(script.js lines 175-183) adds the marker class and unobserves. -/
def revealStep (s : RevealEntry) (hit : Bool) : RevealEntry :=
  if s.observed && hit then { visible := true, observed := false } else s

/-- State of the element after a whole history of intersection events. -/
def runReveal (s : RevealEntry) (events : List Bool) : RevealEntry :=
  events.foldl revealStep s

/-- Number of pending-to-revealed transitions fired along a history. -/
def revealCount : RevealEntry → List Bool → Nat
  | _, [] => 0
  | s, h :: t => (if s.observed && h then 1 else 0) + revealCount (revealStep s h) t

/-! ## Initialization fallbacks (script.js lines 169-173, 522-527, 959-1018) -/

/-- The reveal controllers of the script, one per observed element group. -/
inductive RevealController
  | scrollAnimations
  | processSteps
  | serviceCards
  | testimonialCards
  | sectionHeaders
  | testimonialSlide
  | connectorDraw
  | areaList
  deriving Repr, DecidableEq

/-- Runtime capabilities and preferences that the init code branches on. -/
structure InitEnv where
  hasIntersectionObserver : Bool
  reducedMotion : Bool
  deriving Repr, DecidableEq

/-- Whether the controller's elements receive their revealed marker (class
or inline reveal style) immediately at initialization, before any
intersection event, per the `onReady` wiring (script.js lines 959-1018):
under reduced motion the else-branch (lines 988-997) force-reveals the
fade-up, why-card, service-card, process-step, testimonial-card and
section-header groups; without IntersectionObserver only
`initScrollAnimations` (lines 169-173) has an immediate-reveal fallback,
while `initProcessReveal`, `initServiceCardReveal`, `initTestimonialReveal`,
`initSectionHeaderReveal`, `initTestimonialSlide`, `initConnectorDraw` and
`initAreaListReveal` simply return; no branch ever force-reveals the
process-step connectors or the `.area__list` element at init. -/
def revealedAtInit (env : InitEnv) : RevealController → Bool
  | RevealController.scrollAnimations => env.reducedMotion || !env.hasIntersectionObserver
  | RevealController.processSteps => env.reducedMotion
  | RevealController.serviceCards => env.reducedMotion
  | RevealController.testimonialCards => env.reducedMotion
  | RevealController.sectionHeaders => env.reducedMotion
  | RevealController.testimonialSlide => env.reducedMotion
  | RevealController.connectorDraw => false
  | RevealController.areaList => false

/-! ## The stats counter (script.js lines 201-225) -/

/-- Easing function `easeOutExpo` with its exact special case at `t = 1`
(script.js lines 206-208), over the reals. -/
noncomputable def easeOutExpo (t : ℝ) : ℝ :=
  if t = 1 then 1 else 1 - (2 : ℝ) ^ (-10 * t)

/-- Integer shown by one animation frame at progress `t`:
`Math.round(startVal + (target - startVal) * easeOutExpo(progress))` with
`startVal = 0` (script.js line 213). -/
noncomputable def counterFrameValue (target : ℕ) (t : ℝ) : ℤ :=
  round ((0 : ℝ) + ((target : ℝ) - 0) * easeOutExpo t)

/-- Text assigned by a frame: `current + suffix` (script.js line 215). -/
noncomputable def counterFrameText (target : ℕ) (suffix : String) (t : ℝ) : String :=
  toString (counterFrameValue target t) ++ suffix

/-- Text assigned by the completion branch: `target + suffix`
(script.js line 220). -/
def counterFinalText (target : ℕ) (suffix : String) : String :=
  toString target ++ suffix

/-! ## Helper lemmas -/

theorem dropWhile_rdropWhile_dropWhile {α : Type} (p : α → Bool) (l : List α) :
    ((l.dropWhile p).rdropWhile p).dropWhile p = (l.dropWhile p).rdropWhile p := by
  rcases h : (l.dropWhile p).rdropWhile p with _ | ⟨x, xs⟩
  · rfl
  · have hpre := List.rdropWhile_prefix p (l.dropWhile p)
    rw [h] at hpre
    obtain ⟨t, ht⟩ := hpre
    have h0 : 0 < (l.dropWhile p).length := by
      rw [← ht]; simp
    have hx := List.dropWhile_get_zero_not p l h0
    have hget : (l.dropWhile p).get ⟨0, h0⟩ = x := by
      simp [← ht]
    rw [hget] at hx
    simp only [Bool.not_eq_true] at hx
    simp [List.dropWhile_cons, hx]

theorem jsTrim_idem (s : String) : jsTrim (jsTrim s) = jsTrim s :=
  congrArg String.mk (by
    show (((s.data.dropWhile isJsWhitespace).rdropWhile
        isJsWhitespace).dropWhile isJsWhitespace).rdropWhile isJsWhitespace =
      (s.data.dropWhile isJsWhitespace).rdropWhile isJsWhitespace
    rw [dropWhile_rdropWhile_dropWhile, List.rdropWhile_idempotent])

theorem jsTrim_eq_empty_iff (s : String) :
    jsTrim s = "" ↔ s.data.all isJsWhitespace = true := by
  rw [List.all_eq_true]
  constructor
  · intro h x hx
    have hdata : (s.data.dropWhile isJsWhitespace).rdropWhile isJsWhitespace = [] :=
      congrArg String.data h
    rw [List.rdropWhile_eq_nil_iff] at hdata
    have hx2 : x ∈ s.data.takeWhile isJsWhitespace ++ s.data.dropWhile isJsWhitespace := by
      rw [List.takeWhile_append_dropWhile]; exact hx
    rcases List.mem_append.mp hx2 with hmem | hmem
    · exact List.mem_takeWhile_imp hmem
    · exact hdata x hmem
  · intro h
    have h1 : s.data.dropWhile isJsWhitespace = [] := List.dropWhile_eq_nil_iff.mpr h
    show String.mk _ = ""
    rw [h1]
    rfl

/-! ## C1 -/

/-- C1: for every tracked field, `validateField` first trims the raw value
and then applies required, minLength and pattern in that fixed order,
short-circuiting at the first failure: an empty or whitespace-only value
yields exactly the required message of the field, a non-empty trimmed value
shorter than the field's minLength yields exactly its length message, a
non-empty trimmed phone value failing the pattern yields exactly the
pattern message, passing all rules yields `""`, the result is invariant
under pre-trimming, and at most one message (one of the field's three
declared messages, or `""`) is ever returned. -/
theorem C1_validate_trim_and_priority :
    (∀ v : String, jsTrim v = "" ↔ v.data.all isJsWhitespace = true) ∧
    (∀ v : String, jsTrim v = "" →
      validateField "formName" v = "Ime i prezime su obavezni." ∧
      validateField "formPhone" v = "Broj telefona je obavezan." ∧
      validateField "formMessage" v = "Opis problema je obavezan.") ∧
    (∀ v : String, jsTrim v ≠ "" → (jsTrim v).length < 2 →
      validateField "formName" v = "Unesite puno ime (minimum 2 karaktera).") ∧
    (∀ v : String, jsTrim v ≠ "" → (jsTrim v).length < 10 →
      validateField "formMessage" v = "Opišite problem detaljnije (min. 10 karaktera).") ∧
    (∀ v : String, jsTrim v ≠ "" → phonePattern (jsTrim v) = false →
      validateField "formPhone" v = "Unesite ispravan broj telefona.") ∧
    (∀ v : String, jsTrim v ≠ "" → 2 ≤ (jsTrim v).length →
      validateField "formName" v = "") ∧
    (∀ v : String, jsTrim v ≠ "" → 10 ≤ (jsTrim v).length →
      validateField "formMessage" v = "") ∧
    (∀ v : String, jsTrim v ≠ "" → phonePattern (jsTrim v) = true →
      validateField "formPhone" v = "") ∧
    (∀ id v : String, validateField id v = validateField id (jsTrim v)) ∧
    (∀ id v : String, validateField id v = "" ∨
      ∃ r, rules id = some r ∧
        (validateField id v = r.messages.required ∨
         validateField id v = r.messages.minLength ∨
         validateField id v = r.messages.patternMsg)) ∧
    ("Ime i prezime su obavezni." ≠ "Unesite puno ime (minimum 2 karaktera)." ∧
     "Broj telefona je obavezan." ≠ "Unesite ispravan broj telefona.") := by
  refine ⟨jsTrim_eq_empty_iff, ?_, ?_, ?_, ?_, ?_, ?_, ?_, ?_, ?_, by decide⟩
  · intro v h
    refine ⟨?_, ?_, ?_⟩ <;> simp [validateField, rules, h]
  · intro v h1 h2
    simp [validateField, rules, minLengthTruthy, minLengthVal, h1, h2]
  · intro v h1 h2
    simp [validateField, rules, minLengthTruthy, minLengthVal, h1, h2]
  · intro v h1 h2
    simp [validateField, rules, minLengthTruthy, patternFails, h1, h2]
  · intro v h1 h2
    simp [validateField, rules, minLengthTruthy, minLengthVal, h1, Nat.not_lt.mpr h2]
  · intro v h1 h2
    simp [validateField, rules, minLengthTruthy, minLengthVal, h1, Nat.not_lt.mpr h2]
  · intro v h1 h2
    simp [validateField, rules, minLengthTruthy, patternFails, h1, h2]
  · intro id v
    unfold validateField
    rcases h : rules id with _ | r
    · rfl
    · simp only [jsTrim_idem]
  · intro id v
    rcases h : rules id with _ | r
    · left; simp [validateField, h]
    · have hcases : validateField id v = r.messages.required ∨
          validateField id v = r.messages.minLength ∨
          validateField id v = r.messages.patternMsg ∨
          validateField id v = "" := by
        simp only [validateField, h]
        split_ifs <;> simp
      rcases hcases with h1 | h1 | h1 | h1
      · exact Or.inr ⟨r, rfl, Or.inl h1⟩
      · exact Or.inr ⟨r, rfl, Or.inr (Or.inl h1)⟩
      · exact Or.inr ⟨r, rfl, Or.inr (Or.inr h1)⟩
      · exact Or.inl h1

/-- Witness for C1 at concrete inputs: a whitespace-only name yields the
required message, a one-letter name yields the length message. -/
theorem C1_validate_trim_and_priority_witness :
    validateField "formName" " \t " = "Ime i prezime su obavezni." ∧
    validateField "formName" " a " = "Unesite puno ime (minimum 2 karaktera)." :=
  ⟨(C1_validate_trim_and_priority.2.1 " \t " (by decide)).1,
   C1_validate_trim_and_priority.2.2.1 " a " (by decide) (by decide)⟩

/-- Value preservation: rendering an error never changes the field value. -/
theorem setFieldError_value (f : FieldUI) (m : String) :
    (setFieldError f m).value = f.value := by
  unfold setFieldError
  split_ifs <;> rfl

/-- Shape of the submit handler's result on the invalid path. -/
theorem submitHandlerMain_invalid (s : FormState) (fid : String)
    (hfid : firstInvalidId s = some fid) :
    submitHandlerMain s =
      { s with defaultPrevented := true,
               nameField := setFieldError s.nameField (nameError s),
               phoneField := setFieldError s.phoneField (phoneError s),
               messageField := setFieldError s.messageField (messageError s),
               focused := some fid } := by
  simp only [submitHandlerMain, hfid, markAllFields]
  rfl

/-- Shape of the submit handler's result on the valid path. -/
theorem submitHandlerMain_valid (s : FormState)
    (hfi : firstInvalidId s = none) :
    submitHandlerMain s =
      { s with defaultPrevented := true,
               nameField := setFieldError s.nameField (nameError s),
               phoneField := setFieldError s.phoneField (phoneError s),
               messageField := setFieldError s.messageField (messageError s),
               submitDisabled := true, submitCaption := SubmitCaption.sending,
               submitDimmed := true, simulationStarted := true } := by
  simp only [submitHandlerMain, hfi, markAllFields]
  rfl

/-! ## C2 and C3 -/

/-- C2: submitting with every tracked field valid always prevents the
default action, disables the submit control and switches it to the sending
caption; after the 900ms delay the fields are cleared, the control is
re-enabled with its default caption and icon, the success notice is shown
and no field is left marked invalid (error texts cleared, aria-invalid
false); the notice auto-hides after the further 6s timer. -/
theorem C2_valid_submission_lifecycle (s : FormState)
    (hn : nameError s = "") (hp : phoneError s = "") (hm : messageError s = "") :
    (submitHandlerMain s).defaultPrevented = true ∧
    (submitHandlerMain s).submitDisabled = true ∧
    (submitHandlerMain s).submitCaption = SubmitCaption.sending ∧
    (stateAfterDelay s).nameField.value = "" ∧
    (stateAfterDelay s).phoneField.value = "" ∧
    (stateAfterDelay s).messageField.value = "" ∧
    (stateAfterDelay s).submitDisabled = false ∧
    (stateAfterDelay s).submitCaption = SubmitCaption.defaultCaption ∧
    (stateAfterDelay s).successHidden = false ∧
    (stateAfterToast s).successHidden = true ∧
    (stateAfterDelay s).nameField.isInvalid = false ∧
    (stateAfterDelay s).nameField.errorText = "" ∧
    (stateAfterDelay s).nameField.ariaInvalid = false ∧
    (stateAfterDelay s).phoneField.isInvalid = false ∧
    (stateAfterDelay s).phoneField.errorText = "" ∧
    (stateAfterDelay s).phoneField.ariaInvalid = false ∧
    (stateAfterDelay s).messageField.isInvalid = false ∧
    (stateAfterDelay s).messageField.errorText = "" ∧
    (stateAfterDelay s).messageField.ariaInvalid = false := by
  have hfi : firstInvalidId s = none := by
    simp [firstInvalidId, hn, hp, hm]
  simp [stateAfterToast, stateAfterDelay, submitHandlerMain, hfi, markAllFields,
    submitTimeout, formReset, setFieldError, addSubmittingClass,
    removeSubmittingClass, hideSuccessTimeout, hn, hp, hm]

/-- A concrete contact-form state whose three fields all validate. -/
def demoValidForm : FormState :=
  { nameField := ⟨"Pera Perić", false, false, ""⟩,
    phoneField := ⟨"+381 64 123 4567", false, false, ""⟩,
    messageField := ⟨"Pukla je cev u kupatilu.", false, false, ""⟩,
    submitDisabled := false, submitCaption := SubmitCaption.defaultCaption,
    submitDimmed := false, submittingClass := false, successHidden := true,
    defaultPrevented := false, focused := none, simulationStarted := false }

/-- Witness for C2 at a concrete all-valid form state. -/
theorem C2_valid_submission_lifecycle_witness :
    (submitHandlerMain demoValidForm).submitDisabled = true ∧
    (stateAfterDelay demoValidForm).successHidden = false ∧
    (stateAfterDelay demoValidForm).nameField.value = "" :=
  ⟨(C2_valid_submission_lifecycle demoValidForm (by decide) (by decide) (by decide)).2.1,
   (C2_valid_submission_lifecycle demoValidForm (by decide) (by decide)
      (by decide)).2.2.2.2.2.2.2.2.1,
   (C2_valid_submission_lifecycle demoValidForm (by decide) (by decide)
      (by decide)).2.2.2.1⟩

/-- C3: submitting with at least one invalid field validates and renders
every tracked field in declaration order, marks every invalid field (error
text, invalid class, aria-invalid), moves focus to exactly the first
invalid field in the order formName, formPhone, formMessage, aborts without
starting the (simulated) submission — the submit control is untouched — and
clears no field's entered value. -/
theorem C3_invalid_submission_aborts (s : FormState)
    (h : firstInvalidId s ≠ none) :
    (submitHandlerMain s).defaultPrevented = true ∧
    (submitHandlerMain s).nameField.value = s.nameField.value ∧
    (submitHandlerMain s).phoneField.value = s.phoneField.value ∧
    (submitHandlerMain s).messageField.value = s.messageField.value ∧
    (submitHandlerMain s).nameField = setFieldError s.nameField (nameError s) ∧
    (submitHandlerMain s).phoneField = setFieldError s.phoneField (phoneError s) ∧
    (submitHandlerMain s).messageField = setFieldError s.messageField (messageError s) ∧
    (nameError s ≠ "" → (submitHandlerMain s).nameField.isInvalid = true ∧
      (submitHandlerMain s).nameField.errorText = nameError s ∧
      (submitHandlerMain s).nameField.ariaInvalid = true) ∧
    (phoneError s ≠ "" → (submitHandlerMain s).phoneField.isInvalid = true ∧
      (submitHandlerMain s).phoneField.errorText = phoneError s ∧
      (submitHandlerMain s).phoneField.ariaInvalid = true) ∧
    (messageError s ≠ "" → (submitHandlerMain s).messageField.isInvalid = true ∧
      (submitHandlerMain s).messageField.errorText = messageError s ∧
      (submitHandlerMain s).messageField.ariaInvalid = true) ∧
    (submitHandlerMain s).focused = firstInvalidId s ∧
    (nameError s ≠ "" → (submitHandlerMain s).focused = some "formName") ∧
    (nameError s = "" → phoneError s ≠ "" →
      (submitHandlerMain s).focused = some "formPhone") ∧
    (nameError s = "" → phoneError s = "" → messageError s ≠ "" →
      (submitHandlerMain s).focused = some "formMessage") ∧
    (submitHandlerMain s).simulationStarted = s.simulationStarted ∧
    (submitHandlerMain s).submitDisabled = s.submitDisabled ∧
    (submitHandlerMain s).submitCaption = s.submitCaption := by
  obtain ⟨fid, hfid⟩ := Option.ne_none_iff_exists'.mp h
  rw [submitHandlerMain_invalid s fid hfid]
  refine ⟨rfl, setFieldError_value .., setFieldError_value .., setFieldError_value ..,
    rfl, rfl, rfl, ?_, ?_, ?_, hfid.symm, ?_, ?_, ?_, rfl, rfl, rfl⟩
  · intro hne; simp [setFieldError, hne]
  · intro hne; simp [setFieldError, hne]
  · intro hne; simp [setFieldError, hne]
  · intro hne
    rw [show firstInvalidId s = some "formName" by simp [firstInvalidId, hne]] at hfid
    simp only [Option.some.injEq] at hfid
    simp [hfid]
  · intro he hne
    rw [show firstInvalidId s = some "formPhone" by simp [firstInvalidId, he, hne]] at hfid
    simp only [Option.some.injEq] at hfid
    simp [hfid]
  · intro he1 he2 hne
    rw [show firstInvalidId s = some "formMessage" by
      simp [firstInvalidId, he1, he2, hne]] at hfid
    simp only [Option.some.injEq] at hfid
    simp [hfid]

/-- A concrete contact-form state with an empty name and a bad phone. -/
def demoInvalidForm : FormState :=
  { nameField := ⟨"", false, false, ""⟩,
    phoneField := ⟨"abc", false, false, ""⟩,
    messageField := ⟨"Pukla je cev u kupatilu.", false, false, ""⟩,
    submitDisabled := false, submitCaption := SubmitCaption.defaultCaption,
    submitDimmed := false, submittingClass := false, successHidden := true,
    defaultPrevented := false, focused := none, simulationStarted := false }

/-- Witness for C3 at a concrete invalid form state: focus lands on the
name field, values are untouched, nothing is submitted. -/
theorem C3_invalid_submission_aborts_witness :
    (submitHandlerMain demoInvalidForm).focused = some "formName" ∧
    (submitHandlerMain demoInvalidForm).phoneField.value = demoInvalidForm.phoneField.value ∧
    (submitHandlerMain demoInvalidForm).simulationStarted = demoInvalidForm.simulationStarted :=
  ⟨(C3_invalid_submission_aborts demoInvalidForm (by decide)).2.2.2.2.2.2.2.2.2.2.2.1
      (by decide),
   (C3_invalid_submission_aborts demoInvalidForm (by decide)).2.2.1,
   (C3_invalid_submission_aborts demoInvalidForm (by decide)).2.2.2.2.2.2.2.2.2.2.2.2.2.2.1⟩

/-! ## C4 -/

/-- Evaluation of the phone pattern on a string starting with `'+'`. -/
theorem phonePattern_eq_cons_plus (s : String) (t : List Char)
    (hd : s.data = '+' :: t) :
    phonePattern s =
      (t.all phoneBodyChar && decide (7 ≤ t.length) && decide (t.length ≤ 20)) := by
  simp [phonePattern, hd]

/-- Evaluation of the phone pattern on a string not starting with `'+'`. -/
theorem phonePattern_eq_no_plus (s : String) (h : s.data.head? ≠ some '+') :
    phonePattern s =
      (s.data.all phoneBodyChar && decide (7 ≤ s.data.length) &&
        decide (s.data.length ≤ 20)) := by
  simp [phonePattern, h]

/-- Counterexample to C4 as stated: the claim's total-length reading accepts
the 7-character string `"+123456"`, which the source pattern rejects (only
6 characters follow the `'+'`), and rejects the 21-character string of a
`'+'` followed by 20 digits, which the source pattern accepts; so the
pattern does not accept exactly the claimed set. -/
theorem C4_phone_pattern_counterexample :
    claimedPhoneAccept "+123456" = true ∧ phonePattern "+123456" = false ∧
    validateField "formPhone" "+123456" = "Unesite ispravan broj telefona." ∧
    claimedPhoneAccept "+12345678901234567890" = false ∧
    phonePattern "+12345678901234567890" = true ∧
    validateField "formPhone" "+12345678901234567890" = "" := by
  decide

/-- C4 amended: the pattern accepts exactly the strings consisting of an
optional leading `'+'` followed by 7 to 20 characters drawn from digits,
whitespace, hyphens, parentheses and periods — the 7–20 bound counts the
characters after the optional `'+'`, not the total length.  In particular
it accepts `"+381 64 123 4567"` and rejects `"abc"` and every all-digit
string of 21 or more characters. -/
theorem C4_phone_pattern_amended :
    (∀ s : String, phonePattern s = true ↔
      ∃ body : List Char,
        (s.data = '+' :: body ∨ (s.data = body ∧ s.data.head? ≠ some '+')) ∧
        (∀ c ∈ body, phoneBodyChar c = true) ∧
        7 ≤ body.length ∧ body.length ≤ 20) ∧
    phonePattern "+381 64 123 4567" = true ∧
    phonePattern "abc" = false ∧
    (∀ s : String, (∀ c ∈ s.data, c.isDigit = true) → 21 ≤ s.data.length →
      phonePattern s = false) := by
  refine ⟨?_, by decide, by decide, ?_⟩
  · intro s
    by_cases hhead : s.data.head? = some '+'
    · rcases hd : s.data with _ | ⟨a, t⟩
      · rw [hd] at hhead; exact absurd hhead (by simp)
      · rw [hd] at hhead
        simp only [List.head?_cons, Option.some.injEq] at hhead
        subst hhead
        rw [phonePattern_eq_cons_plus s t hd]
        simp only [Bool.and_eq_true, decide_eq_true_eq, List.all_eq_true]
        constructor
        · rintro ⟨⟨hall, h7⟩, h20⟩
          exact ⟨t, Or.inl rfl, hall, h7, h20⟩
        · rintro ⟨body, hb | ⟨hb, hne⟩, hall, h7, h20⟩
          · have hbt : t = body := by injection hb
            subst hbt
            exact ⟨⟨hall, h7⟩, h20⟩
          · exact absurd rfl hne
    · rw [phonePattern_eq_no_plus s hhead]
      simp only [Bool.and_eq_true, decide_eq_true_eq, List.all_eq_true]
      constructor
      · rintro ⟨⟨hall, h7⟩, h20⟩
        exact ⟨s.data, Or.inr ⟨rfl, hhead⟩, hall, h7, h20⟩
      · rintro ⟨body, hb | ⟨hb, _⟩, hall, h7, h20⟩
        · exact absurd (by rw [hb]; rfl) hhead
        · subst hb
          exact ⟨⟨hall, h7⟩, h20⟩
  · intro s hdig hlen
    have hhead : s.data.head? ≠ some '+' := by
      intro ha
      rcases hd : s.data with _ | ⟨a, t⟩
      · rw [hd] at ha; exact Option.noConfusion ha
      · rw [hd] at ha
        simp only [List.head?_cons, Option.some.injEq] at ha
        have hdig2 := hdig a (by rw [hd]; exact List.mem_cons_self a t)
        rw [ha] at hdig2
        exact absurd hdig2 (by decide)
    rw [phonePattern_eq_no_plus s hhead]
    have h20 : decide (s.data.length ≤ 20) = false := by
      rw [decide_eq_false_iff_not]
      omega
    rw [h20, Bool.and_false]

/-- Witness for the amended C4 at a concrete 21-digit string. -/
theorem C4_phone_pattern_amended_witness :
    phonePattern "123456789012345678901" = false :=
  C4_phone_pattern_amended.2.2.2 "123456789012345678901" (by decide) (by decide)

/-! ## C5 -/

/-- C5: a field identifier with no entry in the rule table validates to the
empty string (valid) for every input value. -/
theorem C5_unknown_field_always_valid (id v : String) (h : rules id = none) :
    validateField id v = "" := by
  simp [validateField, h]

/-- Witness for C5 at a concrete unknown identifier. -/
theorem C5_unknown_field_always_valid_witness :
    rules "formEmail" = none ∧ validateField "formEmail" "!!" = "" :=
  ⟨rfl, C5_unknown_field_always_valid "formEmail" "!!" rfl⟩

/-! ## C6 -/

/-- C6: blur always validates and renders the field; while the field is
marked invalid, every input event re-validates the new value immediately —
clearing the error as soon as the value is valid, updating it otherwise —
and a field not marked invalid is never re-validated on input: only its
value changes. -/
theorem C6_blur_validates_input_revalidates_only_invalid :
    (∀ (id : String) (f : FieldUI),
      onBlur id f = setFieldError f (validateField id f.value)) ∧
    (∀ (id v : String) (f : FieldUI), f.isInvalid = true →
      validateField id v = "" →
      (onInput id v f).isInvalid = false ∧ (onInput id v f).errorText = "" ∧
      (onInput id v f).ariaInvalid = false) ∧
    (∀ (id v : String) (f : FieldUI), f.isInvalid = true →
      validateField id v ≠ "" →
      (onInput id v f).isInvalid = true ∧
      (onInput id v f).errorText = validateField id v) ∧
    (∀ (id v : String) (f : FieldUI), f.isInvalid = false →
      onInput id v f = { f with value := v }) := by
  refine ⟨fun id f => rfl, ?_, ?_, ?_⟩
  · intro id v f hinv hval
    simp [onInput, setFieldError, hinv, hval]
  · intro id v f hinv hval
    simp [onInput, setFieldError, hinv, hval]
  · intro id v f hinv
    simp [onInput, hinv]

/-- Witness for C6: a field marked invalid is cleared by an input event
that makes it valid. -/
theorem C6_blur_validates_input_revalidates_only_invalid_witness :
    (onInput "formName" "Pera" ⟨"", true, true, "Ime i prezime su obavezni."⟩).isInvalid
      = false :=
  (C6_blur_validates_input_revalidates_only_invalid.2.1 "formName" "Pera"
    ⟨"", true, true, "Ime i prezime su obavezni."⟩ rfl (by decide)).1

/-! ## C7 -/

/-- Identity of `revealStep` once the element is unobserved. -/
theorem revealStep_unobserved (s : RevealEntry) (hit : Bool)
    (h : s.observed = false) : revealStep s hit = s := by
  simp [revealStep, h]

/-- Frozen history: an unobserved element never changes again. -/
theorem runReveal_unobserved (s : RevealEntry) (evs : List Bool)
    (h : s.observed = false) : runReveal s evs = s := by
  induction evs with
  | nil => rfl
  | cons e t ih =>
    show runReveal (revealStep s e) t = s
    rw [revealStep_unobserved s e h, ih]

/-- The visible marker is monotone along any event history. -/
theorem runReveal_visible_mono (s : RevealEntry) (evs : List Bool)
    (h : s.visible = true) : (runReveal s evs).visible = true := by
  induction evs generalizing s with
  | nil => exact h
  | cons e t ih =>
    show (runReveal (revealStep s e) t).visible = true
    apply ih
    unfold revealStep
    split_ifs <;> simp [h]

/-- An unobserved element fires no transitions. -/
theorem revealCount_unobserved (s : RevealEntry) (evs : List Bool)
    (h : s.observed = false) : revealCount s evs = 0 := by
  induction evs with
  | nil => rfl
  | cons e t ih =>
    show (if s.observed && e then 1 else 0) + revealCount (revealStep s e) t = 0
    rw [revealStep_unobserved s e h, ih, h]
    simp

/-- C7: the pending-to-revealed transition of a reveal-controller element
fires at most once — on the first intersection the marker class is applied
and the element is unobserved — and once visible an element stays visible
under every further event history (it never reverts, even if it scrolls
out of and back into view). -/
theorem C7_reveal_one_shot_monotone :
    (revealStep ⟨false, true⟩ true = ⟨true, false⟩) ∧
    (∀ (s : RevealEntry) (evs : List Bool), s.visible = true →
      (runReveal s evs).visible = true) ∧
    (∀ (s : RevealEntry) (evs : List Bool), s.observed = false →
      runReveal s evs = s) ∧
    (∀ (s : RevealEntry) (evs : List Bool), revealCount s evs ≤ 1) := by
  refine ⟨rfl, runReveal_visible_mono, runReveal_unobserved, ?_⟩
  intro s evs
  induction evs generalizing s with
  | nil => simp [revealCount]
  | cons e t ih =>
    show (if s.observed && e then 1 else 0) + revealCount (revealStep s e) t ≤ 1
    by_cases h : (s.observed && e) = true
    · have hstep : revealStep s e = ⟨true, false⟩ := by
        unfold revealStep
        rw [if_pos h]
      rw [h, hstep, revealCount_unobserved _ t rfl]
      simp
    · rw [if_neg h]
      simpa using ih (revealStep s e)

/-- Witness for C7: an already revealed, unobserved element stays visible
across a scroll-out/scroll-in history. -/
theorem C7_reveal_one_shot_monotone_witness :
    (runReveal ⟨true, false⟩ [false, true, false]).visible = true :=
  C7_reveal_one_shot_monotone.2.1 ⟨true, false⟩ [false, true, false] rfl

/-! ## C8 -/

/-- Failure of C8 on the code: with reduced motion requested, the
`.area__list` reveal element and the process connectors are never force-set
to their revealed state (their marker is never applied at init), and with
IntersectionObserver absent the section headers, testimonial slide-in,
connectors and area list are never force-revealed either; the claim's
universal statement fails at these controllers, while it does hold for
`initScrollAnimations` (and, under reduced motion, for the style-based
groups). -/
theorem C8_fallback_reveal_gap :
    revealedAtInit ⟨true, true⟩ RevealController.areaList = false ∧
    revealedAtInit ⟨true, true⟩ RevealController.connectorDraw = false ∧
    revealedAtInit ⟨false, false⟩ RevealController.sectionHeaders = false ∧
    revealedAtInit ⟨false, false⟩ RevealController.testimonialSlide = false ∧
    revealedAtInit ⟨false, false⟩ RevealController.processSteps = false ∧
    revealedAtInit ⟨true, true⟩ RevealController.scrollAnimations = true ∧
    revealedAtInit ⟨false, false⟩ RevealController.scrollAnimations = true ∧
    revealedAtInit ⟨true, true⟩ RevealController.processSteps = true ∧
    revealedAtInit ⟨true, true⟩ RevealController.sectionHeaders = true := by
  decide

/-! ## C9 -/

/-- Conversion of a nonnegative integer to its decimal string agrees with
the natural-number conversion. -/
theorem toString_intCast_nat (n : ℕ) : toString ((n : ℤ)) = toString n := rfl

/-- C9: the counter starts at 0 (`easeOutExpo 0 = 0`), each frame displays
`round (target * easeOutExpo t)` followed by the suffix, `easeOutExpo 1 = 1`
exactly, no frame with `0 ≤ t ≤ 1` ever displays a value above the target,
and at completion the displayed text is exactly the target followed by the
suffix — in particular `"98%"` for target 98 with suffix `%`. -/
theorem C9_counter_exact_and_bounded :
    easeOutExpo 1 = 1 ∧
    easeOutExpo 0 = 0 ∧
    (∀ target : ℕ, counterFrameValue target 0 = 0) ∧
    (∀ (target : ℕ) (t : ℝ), 0 ≤ t → t ≤ 1 →
      counterFrameValue target t ≤ (target : ℤ)) ∧
    (∀ (target : ℕ) (suffix : String) (t : ℝ),
      counterFrameText target suffix t =
        toString (round ((target : ℝ) * easeOutExpo t)) ++ suffix) ∧
    (∀ (target : ℕ) (suffix : String),
      counterFrameText target suffix 1 = counterFinalText target suffix) ∧
    counterFinalText 98 "%" = "98%" := by
  have h1 : easeOutExpo 1 = 1 := by simp [easeOutExpo]
  have h0 : easeOutExpo 0 = 0 := by
    have hne : (0 : ℝ) ≠ 1 := by norm_num
    simp [easeOutExpo, hne, Real.rpow_zero]
  refine ⟨h1, h0, ?_, ?_, ?_, ?_, rfl⟩
  · intro target
    simp [counterFrameValue, h0]
  · intro target t ht0 ht1
    have he : easeOutExpo t ≤ 1 := by
      unfold easeOutExpo
      split_ifs with h
      · exact le_refl 1
      · have hpow : (0 : ℝ) ≤ (2 : ℝ) ^ (-10 * t) :=
          Real.rpow_nonneg (by norm_num) _
        linarith
    have hT0 : (0 : ℝ) ≤ (target : ℝ) := Nat.cast_nonneg target
    have hmul : (target : ℝ) * easeOutExpo t ≤ (target : ℝ) := by
      calc (target : ℝ) * easeOutExpo t ≤ (target : ℝ) * 1 :=
            mul_le_mul_of_nonneg_left he hT0
        _ = (target : ℝ) := mul_one _
    unfold counterFrameValue
    rw [round_eq, Int.floor_le_iff]
    push_cast
    linarith
  · intro target suffix t
    simp [counterFrameText, counterFrameValue]
  · intro target suffix
    have hv : counterFrameValue target 1 = (target : ℤ) := by
      simp [counterFrameValue, h1]
    rw [counterFrameText, hv, toString_intCast_nat]
    rfl

/-- Witness for C9's bounded-frame conjunct at target 98 and `t = 1`. -/
theorem C9_counter_exact_and_bounded_witness :
    counterFrameValue 98 1 ≤ (98 : ℤ) :=
  C9_counter_exact_and_bounded.2.2.2.1 98 1 (by norm_num) (by norm_num)

/-! ## C10 -/

/-- C10: every submit dispatch — valid or invalid — schedules the 0ms timer
that adds `btn--submitting` and the 900ms timer that removes it, and those
timers respectively set and clear the class on any form state. -/
theorem C10_submitting_class_on_every_submit (s x : FormState) :
    ((0, TimedAct.addSubmitting) ∈ (dispatchSubmit s).2 ∧
     (900, TimedAct.removeSubmitting) ∈ (dispatchSubmit s).2) ∧
    (addSubmittingClass x).submittingClass = true ∧
    (removeSubmittingClass x).submittingClass = false := by
  refine ⟨⟨?_, ?_⟩, rfl, rfl⟩ <;>
  · by_cases h : formIsValid s = true <;>
      simp [dispatchSubmit, h]

end Plumber
